import Mathlib

/-!
Verification development for the solar-sync hardware abstraction layer.

Shallow embedding of `app/hardware` (Python) into Lean:
* `base_driver.py` — driver state machine (`auto_reconnect`, `health_check`);
* `simulator.py` — simulation engine arithmetic (solar, battery SOC, efficiency);
* `modbus_rtu.py` — bus scan and device identification;
* `device_manager.py` — device table, scan orchestration, driver factory,
  `write_control`.

Python floats are modelled as `ℚ` (exact arithmetic); the one transcendental
value (`math.exp` in the solar bell curve) forces `ℝ` for that single function.
External effects (serial I/O, `datetime.now()`, `random.uniform`) are passed in
as explicit oracle arguments; `random.uniform(a, b)` results are arbitrary
rationals, constrained to `[a, b]` only where a theorem needs the bound.
-/

namespace SolarSync

/-- `DeviceStatus` enum from `base_driver.py`. -/
inductive DeviceStatus where
  | disconnected
  | connecting
  | connected
  | error
  | simulation
deriving DecidableEq, Repr

/-- Mutable fields of `BaseDriver` that the base-class methods touch
(`status`, `last_error`, `connection_attempts`, `max_retries`). -/
structure DriverState where
  status : DeviceStatus
  lastError : Option String
  attempts : ℕ
  maxRetries : ℕ
deriving DecidableEq, Repr

/-- Fresh `BaseDriver.__init__` state: Disconnected, no error, 0 attempts,
`max_retries = 3`. -/
def initDriver : DriverState :=
  { status := .disconnected, lastError := none, attempts := 0, maxRetries := 3 }

/-- Outcome of an `await self.connect()` call made by the base class:
the subclass either returns a boolean or raises. -/
inductive ConnectOutcome where
  | ok (success : Bool)
  | exc (msg : String)
deriving DecidableEq, Repr

/-- `BaseDriver.auto_reconnect` (base_driver.py:147-175). Returns the new
driver state, the boolean result, and how many times `connect()` was called
(0 or 1). -/
def autoReconnect (d : DriverState) (o : ConnectOutcome) :
    DriverState × Bool × ℕ :=
  if d.status = .connected ∨ d.status = .connecting then
    (d, true, 0)
  else if d.maxRetries ≤ d.attempts then
    (d, false, 0)
  else
    let d1 : DriverState := { d with status := .connecting, attempts := d.attempts + 1 }
    match o with
    | .ok true => ({ d1 with status := .connected, attempts := 0 }, true, 1)
    | .ok false => ({ d1 with status := .error }, false, 1)
    | .exc m => ({ d1 with status := .error, lastError := some m }, false, 1)

/-- Outcome of `await self.test_connection()` inside `health_check`. -/
inductive TestOutcome where
  | ok (responding : Bool)
  | exc (msg : String)
deriving DecidableEq, Repr

/-- `BaseDriver.health_check` (base_driver.py:115-145), state part only
(the returned report dict is not needed by the claims).  On a responding
probe it sets Connected and clears `last_error`; on a non-responding probe it
sets Error but does not assign `self.last_error`; on an exception it sets
Error and stores the message. -/
def healthCheck (d : DriverState) (o : TestOutcome) : DriverState :=
  match o with
  | .ok true => { d with status := .connected, lastError := none }
  | .ok false => { d with status := .error }
  | .exc m => { d with status := .error, lastError := some m }

/-- C2: `auto_reconnect` never calls `connect()` when the attempt counter has
reached `max_retries`; it is a `true` no-op (state untouched, no `connect()`
call) when the status is already Connected or Connecting; when neither guard
fires it calls `connect()` exactly once after moving to Connecting and
incrementing the counter, and a successful `connect()` yields status
Connected with the counter reset to 0. -/
theorem autoReconnect_circuit_breaker (d : DriverState) (o : ConnectOutcome) :
    (d.maxRetries ≤ d.attempts → (autoReconnect d o).2.2 = 0) ∧
    (d.status = .connected ∨ d.status = .connecting →
      autoReconnect d o = (d, true, 0)) ∧
    (¬(d.status = .connected ∨ d.status = .connecting) →
      d.maxRetries ≤ d.attempts →
      autoReconnect d o = (d, false, 0)) ∧
    (¬(d.status = .connected ∨ d.status = .connecting) →
      d.attempts < d.maxRetries →
      (autoReconnect d o).2.2 = 1 ∧
      (o = .ok true →
        autoReconnect d o =
          ({ d with status := .connected, attempts := 0 }, true, 1))) := by
  unfold autoReconnect
  refine ⟨?_, ?_, ?_, ?_⟩
  · intro hle
    by_cases h : d.status = .connected ∨ d.status = .connecting
    · rw [if_pos h]
    · rw [if_neg h, if_pos hle]
  · intro h
    rw [if_pos h]
  · intro h hle
    rw [if_neg h, if_pos hle]
  · intro h hlt
    rw [if_neg h, if_neg (by omega)]
    constructor
    · cases o with
      | ok b => cases b <;> rfl
      | exc m => rfl
    · intro ho
      subst ho
      rfl

/-- Witness for `autoReconnect_circuit_breaker` at a concrete state: an Error
driver with 3 failed attempts gets `(d, false, 0)` back. -/
theorem autoReconnect_circuit_breaker_witness :
    autoReconnect
        { status := .error, lastError := none, attempts := 3, maxRetries := 3 }
        (.ok true) =
      ({ status := .error, lastError := none, attempts := 3, maxRetries := 3 },
        false, 0) :=
  (autoReconnect_circuit_breaker
      { status := .error, lastError := none, attempts := 3, maxRetries := 3 }
      (.ok true)).2.2.1 (by decide) (by decide)

/-- C3: the spec invariant "`status == Connected` implies `last_error == null`"
fails on the code: a `health_check` whose `test_connection` raises records
`last_error` and status Error; a subsequent `auto_reconnect` whose `connect()`
succeeds sets status Connected and resets the attempt counter but never clears
`last_error`, leaving a Connected driver with a non-null `last_error`. -/
theorem connected_with_stale_lastError :
    (autoReconnect (healthCheck initDriver (.exc "serial fault")) (.ok true)).1.status
        = .connected ∧
    (autoReconnect (healthCheck initDriver (.exc "serial fault")) (.ok true)).1.lastError
        = some "serial fault" := by
  decide

/-! ### Simulation engine (`simulator.py`) -/

/-- `SimulationDriver.__init__` constants: battery capacity 100 Ah. -/
def batteryCapacity : ℚ := 100

/-- `SimulationDriver.__init__` constants: nominal battery voltage 48 V. -/
def batteryVoltage : ℚ := 48

/-- `SimulationDriver.__init__` constants: max solar power 5000 W. -/
def maxSolarPower : ℚ := 5000

/-- `SimulationDriver.__init__` initial state of charge: 75 %. -/
def initialSoc : ℚ := 75

/-- `SimulationDriver._calculate_battery_power` (simulator.py:155-182):
given the current SOC, the solar and load powers, the elapsed seconds
`time_diff` and the `random.uniform(-50, 50)` draw, returns the reported
battery power and the updated SOC (`self.battery_soc`). -/
def calcBatteryPower (soc solar load dt noise : ℚ) : ℚ × ℚ :=
  let excess := solar - load
  if 0 < excess ∧ soc < 95 then
    let chargePower := min (excess * (8 / 10)) 2000
    let socChange := chargePower * dt / (batteryCapacity * batteryVoltage * 3600) * 100
    let soc' := min 95 (soc + socChange)
    (-chargePower + noise, soc')
  else if excess < 0 ∧ 20 < soc then
    let dischargePower := min (|excess| * (9 / 10)) 3000
    let socChange := dischargePower * dt / (batteryCapacity * batteryVoltage * 3600) * 100
    let soc' := max 20 (soc - socChange)
    (dischargePower + noise, soc')
  else
    (0 + noise, soc)

/-- One `read_data` call's inputs to the battery model: the solar power, the
load power, the elapsed time since the previous call, and the noise draw. -/
structure SimStep where
  solar : ℚ
  load : ℚ
  dt : ℚ
  noise : ℚ

/-- SOC values reported by successive `read_data` calls: each call feeds the
current `self.battery_soc` into `_calculate_battery_power` and reports the
updated value. -/
def socTrace (soc : ℚ) : List SimStep → List ℚ
  | [] => []
  | st :: rest =>
      let soc' := (calcBatteryPower soc st.solar st.load st.dt st.noise).2
      soc' :: socTrace soc' rest

/-- One battery update keeps the SOC inside `[20, 95]` when it starts there
and the elapsed time is nonnegative. -/
theorem calcBatteryPower_soc_bounds (soc solar load dt noise : ℚ)
    (h20 : 20 ≤ soc) (h95 : soc ≤ 95) (hdt : 0 ≤ dt) :
    20 ≤ (calcBatteryPower soc solar load dt noise).2 ∧
      (calcBatteryPower soc solar load dt noise).2 ≤ 95 := by
  have hcap : (0 : ℚ) < batteryCapacity * batteryVoltage * 3600 := by
    norm_num [batteryCapacity, batteryVoltage]
  simp only [calcBatteryPower]
  split_ifs with hc hd
  · have hchg : (0 : ℚ) ≤ min ((solar - load) * (8 / 10)) 2000 :=
      le_min (by nlinarith [hc.1]) (by norm_num)
    have hΔ : (0 : ℚ) ≤
        min ((solar - load) * (8 / 10)) 2000 * dt /
          (batteryCapacity * batteryVoltage * 3600) * 100 := by positivity
    exact ⟨le_min (by norm_num) (by linarith), min_le_left _ _⟩
  · have hdis : (0 : ℚ) ≤ min (|solar - load| * (9 / 10)) 3000 :=
      le_min (by positivity) (by norm_num)
    have hΔ : (0 : ℚ) ≤
        min (|solar - load| * (9 / 10)) 3000 * dt /
          (batteryCapacity * batteryVoltage * 3600) * 100 := by positivity
    exact ⟨le_max_left _ _, max_le (by norm_num) (by linarith)⟩
  · exact ⟨h20, h95⟩

/-- Every SOC along a trace from a starting value in `[20, 95]` stays in
`[20, 95]`, provided all elapsed times are nonnegative. -/
theorem socTrace_bounds (steps : List SimStep) (soc : ℚ)
    (h20 : 20 ≤ soc) (h95 : soc ≤ 95)
    (hdt : ∀ st ∈ steps, 0 ≤ st.dt) :
    ∀ x ∈ socTrace soc steps, 20 ≤ x ∧ x ≤ 95 := by
  induction steps generalizing soc with
  | nil => intro x hx; simp [socTrace] at hx
  | cons st rest ih =>
      intro x hx
      have hstep := calcBatteryPower_soc_bounds soc st.solar st.load st.dt st.noise
        h20 h95 (hdt st (by simp))
      simp only [socTrace, List.mem_cons] at hx
      rcases hx with rfl | hx
      · exact hstep
      · exact ih _ hstep.1 hstep.2 (fun s hs => hdt s (by simp [hs])) x hx

/-- C4: starting from the initial SOC of 75, every SOC reported across an
arbitrary sequence of `read()` calls — arbitrary solar/load powers, arbitrary
nonnegative elapsed time per call, arbitrary noise — lies within `[20, 95]`. -/
theorem simulated_soc_within_bounds (steps : List SimStep)
    (hdt : ∀ st ∈ steps, 0 ≤ st.dt) :
    ∀ x ∈ socTrace initialSoc steps, 20 ≤ x ∧ x ≤ 95 :=
  socTrace_bounds steps initialSoc (by norm_num [initialSoc])
    (by norm_num [initialSoc]) hdt

/-- Witness for `simulated_soc_within_bounds`: the SOC reported after one
full-sun step of 10⁷ seconds stays clamped inside `[20, 95]`. -/
theorem simulated_soc_within_bounds_witness :
    20 ≤ (calcBatteryPower initialSoc 5000 0 10000000 0).2 ∧
      (calcBatteryPower initialSoc 5000 0 10000000 0).2 ≤ 95 :=
  simulated_soc_within_bounds
    [{ solar := 5000, load := 0, dt := 10000000, noise := 0 }]
    (by intro st hst; fin_cases hst <;> norm_num)
    ((calcBatteryPower initialSoc 5000 0 10000000 0).2)
    (by simp [socTrace])

/-- `SimulationDriver._calculate_efficiency` (simulator.py:184-200): 0 when
solar power is exactly 0; otherwise 85 % base, +5 when the power ratio
(clamped to 1) lies in `[0.3, 0.7]`, plus the `random.uniform(-2, 2)` draw,
clamped to `[0, 100]`.  The `load_power` argument is accepted but unused, as
in the source. -/
def calcEfficiency (solar _load noise : ℚ) : ℚ :=
  if solar = 0 then 0
  else
    let powerRatio := min (solar / maxSolarPower) 1
    let base : ℚ := if 3 / 10 ≤ powerRatio ∧ powerRatio ≤ 7 / 10 then 85 + 5 else 85
    max 0 (min 100 (base + noise))

/-- C10: whenever the simulated solar power is exactly 0, the efficiency the
snapshot reports is exactly 0; whenever solar power is strictly positive (and
the noise draw honours its `uniform(-2, 2)` range), the reported efficiency is
at least 83 — so the 85 % base (and the 30-70 % boost) applies only to
strictly positive solar power. -/
theorem efficiency_zero_iff_no_solar (solar load noise : ℚ) :
    (solar = 0 → calcEfficiency solar load noise = 0) ∧
    (0 < solar → -2 ≤ noise → 83 ≤ calcEfficiency solar load noise) := by
  constructor
  · intro h
    simp [calcEfficiency, h]
  · intro hpos hn
    rw [calcEfficiency, if_neg (by linarith)]
    have h83 : (83 : ℚ) ≤
        min 100 ((if 3 / 10 ≤ min (solar / maxSolarPower) 1 ∧
            min (solar / maxSolarPower) 1 ≤ 7 / 10 then (85 : ℚ) + 5 else 85) + noise) := by
      refine le_min (by norm_num) ?_
      split <;> linarith
    calc (83 : ℚ) ≤ _ := h83
      _ ≤ _ := le_max_right _ _

/-- Witness for `efficiency_zero_iff_no_solar`: at zero solar the efficiency
is 0, and at 2500 W with zero noise it is at least 83. -/
theorem efficiency_zero_iff_no_solar_witness :
    calcEfficiency 0 800 2 = 0 ∧ 83 ≤ calcEfficiency 2500 800 0 :=
  ⟨(efficiency_zero_iff_no_solar 0 800 2).1 rfl,
    (efficiency_zero_iff_no_solar 2500 800 0).2 (by norm_num) (by norm_num)⟩

/-! ### Solar curve and its day-anchored daylight window

Timestamps are rational seconds since an epoch, with local midnights at
multiples of 86400 (no DST in the model).  `datetime.replace(hour=h, ...)`
on the construction time therefore lands at `86400 * ⌊t₀ / 86400⌋ + 3600 h`,
and `datetime.hour` is `⌊t / 3600⌋ % 24`. -/

/-- `self.day_start`: 06:00 of the calendar day on which the
`SimulationDriver` was constructed (simulator.py:25). -/
def dayStart (t0 : ℚ) : ℚ := 86400 * ⌊t0 / 86400⌋ + 6 * 3600

/-- `self.day_end`: 18:00 of the calendar day on which the
`SimulationDriver` was constructed (simulator.py:26). -/
def dayEnd (t0 : ℚ) : ℚ := 86400 * ⌊t0 / 86400⌋ + 18 * 3600

/-- `datetime.hour` of a timestamp. -/
def hourOf (t : ℚ) : ℤ := ⌊t / 3600⌋ % 24

/-- `SimulationDriver._calculate_solar_power` (simulator.py:105-131).
`t0` is the construction time, `now` the call time; `u1` is the
`random.uniform(-0.1, 0.1)` draw, `w` the `random.uniform(0.7, 1.0)` weather
factor and `u2` the `random.uniform(-50, 50)` fluctuation.  The Gaussian
factor forces the result into `ℝ`. -/
noncomputable def calcSolarPower (t0 now u1 w u2 : ℚ) : ℝ :=
  if now < dayStart t0 ∨ dayEnd t0 < now then 0
  else
    let hoursSinceSunrise : ℚ := (now - dayStart t0) / 3600
    let timeFromPeak : ℚ := |hoursSinceSunrise - 6|
    let solarFactor : ℝ := Real.exp (-((timeFromPeak : ℝ) ^ 2) / 8) * (1 + (u1 : ℚ))
    max 0 ((maxSolarPower : ℝ) * solarFactor * (w : ℚ) + (u2 : ℚ))

/-- C5 (code bug): the daylight window is anchored to the construction day,
so for a driver constructed at noon of day 0, a `read()` at noon of day 1 —
an hour-12 call — reports solar power exactly 0 for every random draw,
where the claim requires strictly positive power at solar noon regardless of
the calendar day. -/
theorem solar_zero_at_noon_next_day :
    hourOf (86400 + 12 * 3600) = 12 ∧
    ∀ u1 w u2 : ℚ, calcSolarPower (12 * 3600) (86400 + 12 * 3600) u1 w u2 = 0 := by
  constructor
  · have h36 : (86400 + 12 * 3600 : ℚ) / 3600 = ((36 : ℤ) : ℚ) := by norm_num
    rw [hourOf, h36, Int.floor_intCast]
    decide
  · intro u1 w u2
    rw [calcSolarPower, if_pos]
    right
    rw [dayEnd]
    norm_num

/-! ### Modbus RTU scanner (`modbus_rtu.py`) -/

/-- The printable-ASCII decode in `_identify_device` (modbus_rtu.py:245):
`''.join(chr(reg) for reg in registers if 32 <= reg <= 126)`. -/
def asciiOfRegs (regs : List ℕ) : String :=
  String.mk (regs.filterMap fun r =>
    if 32 ≤ r ∧ r ≤ 126 then some (Char.ofNat r) else none)

/-- The two identification-tag forms `_identify_device` can return: the
decoded (and stripped) printable-ASCII string, or the placeholder
`"Unknown device (registers: ...)"` carrying the first raw register words. -/
inductive Ident where
  | decoded (s : String)
  | placeholder (regs : List ℕ)
deriving DecidableEq, Repr

/-- `ModbusRTUScanner._identify_device` (modbus_rtu.py:225-268), with the
three register-window reads supplied as oracle results (`none` = failed or
errored read).  The first window that returns a non-empty register list with
a nonzero word determines the tag: the decoded ASCII string (stripped) when its
length exceeds 3, otherwise the placeholder with the first five registers;
if no window qualifies the device is not identified (`none`). -/
def identifyDevice : List (Option (List ℕ)) → Option Ident
  | [] => none
  | none :: rest => identifyDevice rest
  | some regs :: rest =>
      if regs ≠ [] ∧ regs.any (· ≠ 0) = true then
        if 3 < (asciiOfRegs regs).length then
          some (.decoded (asciiOfRegs regs).trim)
        else
          some (.placeholder (regs.take 5))
      else identifyDevice rest

/-- One candidate bus address during `scan_modbus_devices`: its slave id,
whether `test_connection` succeeds (liveness), and the identification-window
read results. -/
structure AddrProbe where
  slaveId : ℕ
  live : Bool
  reads : List (Option (List ℕ))
deriving DecidableEq, Repr

/-- The per-baud-rate address loop of `ModbusRTUScanner.scan_modbus_devices`
(modbus_rtu.py:205-219): probe each address in order; on a live,
identified address record the device and `break` to the next baud rate;
otherwise continue with the next address. -/
def scanBaud : List AddrProbe → List (ℕ × Ident)
  | [] => []
  | a :: rest =>
      if a.live then
        match identifyDevice a.reads with
        | some ident => [(a.slaveId, ident)]
        | none => scanBaud rest
      else scanBaud rest

/-- C8 counterexample: a candidate address that passes the liveness probe but
whose three identification windows return only zero registers (or fail)
yields no discovered device at all — the scan result is empty, refuting
"a liveness-responding address always yields a discovered device". -/
theorem live_address_yields_no_device :
    (AddrProbe.mk 1 true [some [0, 0], none, none]).live = true ∧
    scanBaud [AddrProbe.mk 1 true [some [0, 0], none, none]] = [] := by
  decide

/-- Any identification returned by `_identify_device` comes from one of its
windows and has one of the two tag forms. -/
theorem identifyDevice_form (reads : List (Option (List ℕ))) (ident : Ident)
    (h : identifyDevice reads = some ident) :
    ∃ regs, some regs ∈ reads ∧ regs ≠ [] ∧ regs.any (· ≠ 0) = true ∧
      ((3 < (asciiOfRegs regs).length ∧ ident = .decoded (asciiOfRegs regs).trim) ∨
        ((asciiOfRegs regs).length ≤ 3 ∧ ident = .placeholder (regs.take 5))) := by
  induction reads with
  | nil => simp [identifyDevice] at h
  | cons r rest ih =>
      cases r with
      | none =>
          obtain ⟨regs, hmem, hrest⟩ := ih (by simpa [identifyDevice] using h)
          exact ⟨regs, List.mem_cons_of_mem _ hmem, hrest⟩
      | some regs =>
          simp only [identifyDevice] at h
          by_cases hu : regs ≠ [] ∧ regs.any (· ≠ 0) = true
          · rw [if_pos hu] at h
            by_cases hlen : 3 < (asciiOfRegs regs).length
            · rw [if_pos hlen] at h
              exact ⟨regs, by simp, hu.1, hu.2,
                Or.inl ⟨hlen, (Option.some_inj.mp h).symm⟩⟩
            · rw [if_neg hlen] at h
              exact ⟨regs, by simp, hu.1, hu.2,
                Or.inr ⟨by omega, (Option.some_inj.mp h).symm⟩⟩
          · rw [if_neg hu] at h
            obtain ⟨regs', hmem, hrest⟩ := ih h
            exact ⟨regs', List.mem_cons_of_mem _ hmem, hrest⟩

/-- A window with a non-empty, not-all-zero register read guarantees
`_identify_device` produces an identification. -/
theorem identifyDevice_isSome (reads : List (Option (List ℕ)))
    (h : ∃ regs, some regs ∈ reads ∧ regs ≠ [] ∧ regs.any (· ≠ 0) = true) :
    (identifyDevice reads).isSome := by
  induction reads with
  | nil => simp at h
  | cons r rest ih =>
      obtain ⟨regs, hmem, hne, hany⟩ := h
      rcases List.mem_cons.mp hmem with heq | hmem'
      · rw [← heq]
        simp only [identifyDevice]
        rw [if_pos ⟨hne, hany⟩]
        split <;> simp
      · cases r with
        | none => exact ih ⟨regs, hmem', hne, hany⟩
        | some regs' =>
            simp only [identifyDevice]
            split_ifs with h1 h2
            · simp
            · simp
            · exact ih ⟨regs, hmem', hne, hany⟩

/-- If every earlier address fails (not live, or unidentifiable), the first
live, identifiable address is the device the baud-rate scan returns. -/
theorem scanBaud_first (pre : List AddrProbe) (a : AddrProbe)
    (rest : List AddrProbe) (ident : Ident)
    (hpre : ∀ b ∈ pre, b.live = false ∨ identifyDevice b.reads = none)
    (hlive : a.live = true)
    (hid : identifyDevice a.reads = some ident) :
    scanBaud (pre ++ a :: rest) = [(a.slaveId, ident)] := by
  induction pre with
  | nil => simp [scanBaud, hlive, hid]
  | cons b pre ih =>
      have hnext : scanBaud (pre ++ a :: rest) = [(a.slaveId, ident)] :=
        ih fun c hc => hpre c (by simp [hc])
      have hb := hpre b (by simp)
      simp only [List.cons_append, scanBaud]
      rcases hb with hb | hb
      · simp [hb, hnext]
      · by_cases hbl : b.live = true
        · simp [hbl, hb, hnext]
        · simp [hbl, hnext]

/-- C8 amended: during the per-baud-rate scan, the first probed address that
passes the liveness probe and has at least one identification window
returning a non-empty register list with a nonzero word (all earlier
addresses being dead or unidentifiable) produces exactly one discovered
device, whose tag is the decoded printable-ASCII string when that string has
length greater than 3 and otherwise the placeholder with the raw register
values; a live address with no such window yields no device. -/
theorem scan_live_identified_address (pre rest : List AddrProbe) (a : AddrProbe)
    (hpre : ∀ b ∈ pre, b.live = false ∨ identifyDevice b.reads = none)
    (hlive : a.live = true)
    (husable : ∃ regs, some regs ∈ a.reads ∧ regs ≠ [] ∧ regs.any (· ≠ 0) = true) :
    ∃ ident, identifyDevice a.reads = some ident ∧
      scanBaud (pre ++ a :: rest) = [(a.slaveId, ident)] ∧
      ∃ regs, some regs ∈ a.reads ∧ regs ≠ [] ∧ regs.any (· ≠ 0) = true ∧
        ((3 < (asciiOfRegs regs).length ∧ ident = .decoded (asciiOfRegs regs).trim) ∨
          ((asciiOfRegs regs).length ≤ 3 ∧ ident = .placeholder (regs.take 5))) := by
  obtain ⟨ident, hid⟩ := Option.isSome_iff_exists.mp (identifyDevice_isSome a.reads husable)
  exact ⟨ident, hid, scanBaud_first pre a rest ident hpre hlive hid,
    identifyDevice_form a.reads ident hid⟩

/-- Witness for `scan_live_identified_address`: a single live address whose
first window decodes to `"GROWATT"`. -/
theorem scan_live_identified_address_witness :
    ∃ ident,
      identifyDevice [some [71, 82, 79, 87, 65, 84, 84, 0, 0, 0], none, none]
          = some ident ∧
      scanBaud [AddrProbe.mk 7 true
          [some [71, 82, 79, 87, 65, 84, 84, 0, 0, 0], none, none]]
          = [(7, ident)] ∧
      ∃ regs,
        some regs ∈ [some [71, 82, 79, 87, 65, 84, 84, 0, 0, 0], none, none] ∧
        regs ≠ [] ∧ regs.any (· ≠ 0) = true ∧
        ((3 < (asciiOfRegs regs).length ∧ ident = .decoded (asciiOfRegs regs).trim) ∨
          ((asciiOfRegs regs).length ≤ 3 ∧ ident = .placeholder (regs.take 5))) :=
  scan_live_identified_address [] []
    (AddrProbe.mk 7 true [some [71, 82, 79, 87, 65, 84, 84, 0, 0, 0], none, none])
    (by simp) rfl
    ⟨[71, 82, 79, 87, 65, 84, 84, 0, 0, 0], by simp, by decide, by decide⟩

/-! ### Device manager (`device_manager.py`) -/

/-- The driver variants the factory can produce. -/
inductive DriverKind where
  | growatt
  | deye
  | sma
  | generic
  | simulation
deriving DecidableEq, Repr

/-- A driver entry in the device table, reduced to the fields the manager
reads: variant, status, last error and attempt counter. -/
structure Driver where
  kind : DriverKind
  status : DeviceStatus
  lastError : Option String
  attempts : ℕ
deriving DecidableEq, Repr

/-- The `SimulationDriver` right after `_enable_simulation_mode` constructs
and `connect()`s it: `connect` sets status Connected (simulator.py:39-43). -/
def simDriverConnected : Driver :=
  { kind := .simulation, status := .connected, lastError := none, attempts := 0 }

/-- Python's `needle in haystack` on lists of characters. -/
def listContainsChars (needle : List Char) : List Char → Bool
  | [] => needle.isPrefixOf []
  | c :: rest => needle.isPrefixOf (c :: rest) || listContainsChars needle rest

/-- Python's case-sensitive substring test `needle in hay`. -/
def strContains (hay needle : String) : Bool :=
  listContainsChars needle.toList hay.toList

/-- Python's `str.lower()`: character-wise lower-casing. -/
def strToLower (s : String) : String := String.mk (s.toList.map Char.toLower)

/-- Which driver modules import successfully.  The vendor driver modules are
not part of the hardware core's own sources; their availability is the input
this claim quantifies over. -/
structure DriverAvail where
  growatt : Bool
  deye : Bool
  sma : Bool
  generic : Bool
deriving DecidableEq, Repr

/-- `DeviceManager._create_driver` (device_manager.py:183-205): lower-case
substring match of the identification tag against the vendor vocabulary, in
source order.  A failing `import` of the selected module raises inside the
`try`, is caught by the blanket `except`, and yields `None` (the nested
`_create_*_driver` helpers guard the same import a second time). -/
def createDriver (ident : String) (avail : DriverAvail) : Option DriverKind :=
  let l := strToLower ident
  if strContains l "growatt" || strContains l "spf" then
    if avail.growatt then some .growatt else none
  else if strContains l "deye" || strContains l "sun" then
    if avail.deye then some .deye else none
  else if strContains l "sma" || strContains l "sunny" then
    if avail.sma then some .sma else none
  else
    if avail.generic then some .generic else none

/-- Python dict assignment `self.devices[key] = driver`: replace the entry
in place when the key exists, else append. -/
def insertKey : List (String × Driver) → String → Driver → List (String × Driver)
  | [], k, d => [(k, d)]
  | p :: rest, k, d => if p.1 = k then (k, d) :: rest else p :: insertKey rest k d

/-- One entry of the `found_devices` list assembled by `scan_devices`
(device_manager.py:105-113). -/
structure FoundDev where
  port : String
  baudrate : ℕ
  slaveId : ℕ
  ident : String
deriving DecidableEq, Repr

/-- `DeviceManager._connect_to_devices` (device_manager.py:164-181): for each
discovered device, create a driver (skipping the device when the factory
yields `None`), store it under `f"{port}_{slave_id}"`, and connect it.  The
post-`connect()` driver status and error of the vendor drivers are oracle
inputs (their `connect` bodies live outside the manager). -/
def connectToDevices (avail : DriverAvail)
    (connStatus : FoundDev → DeviceStatus) (connError : FoundDev → Option String)
    (tbl : List (String × Driver)) (devs : List FoundDev) :
    List (String × Driver) :=
  devs.foldl (fun acc fd =>
    match createDriver fd.ident avail with
    | some k =>
        insertKey acc (fd.port ++ "_" ++ toString fd.slaveId)
          { kind := k, status := connStatus fd, lastError := connError fd,
            attempts := 0 }
    | none => acc) tbl

/-- `DeviceManager` state: the device table, the simulation-mode flag, the
`scanning` guard and `last_scan`. -/
structure MState where
  devices : List (String × Driver)
  simMode : Bool
  scanning : Bool
  lastScan : Option ℚ
deriving DecidableEq, Repr

/-- `DeviceManager.__init__` (device_manager.py:23-33). -/
def initManager : MState :=
  { devices := [], simMode := false, scanning := false, lastScan := none }

/-- `DeviceManager._enable_simulation_mode` (device_manager.py:141-162):
sets the flag, installs the simulator under the fixed key `"simulator"` and
connects it. -/
def enableSimulationMode (s : MState) : MState :=
  { s with simMode := true,
           devices := insertKey s.devices "simulator" simDriverConnected }

/-- What the discovery I/O of one `scan_devices` call produced: either the
assembled `found_devices` list, or an exception inside the `try`. -/
inductive ScanOutcome where
  | found (devs : List FoundDev)
  | failure (msg : String)
deriving Repr

/-- Oracle inputs of one `scan_devices` call: the discovery outcome, the
wall-clock time, how many transport opens the discovery performed, which
driver modules import, and the vendor drivers' post-connect state. -/
structure ScanOracle where
  outcome : ScanOutcome
  now : ℚ
  opens : ℕ
  avail : DriverAvail
  connStatus : FoundDev → DeviceStatus
  connError : FoundDev → Option String

/-- The dict returned by `scan_devices`; absent keys are `none`. -/
structure ScanResult where
  status : String
  devices : Option (List FoundDev)
  simulationMode : Option Bool
  error : Option String
deriving DecidableEq, Repr

/-- `DeviceManager.scan_devices` (device_manager.py:81-139).  Returns the
result dict, the post-call manager state, and the number of transport opens
performed.  A call that enters while `scanning` is set returns immediately;
otherwise: zero discovered devices (or an internal failure) enables
simulation mode; at least one discovered device goes to
`_connect_to_devices`; `last_scan` is stamped only on the non-exception
paths; the `finally` clears `scanning`. -/
def scanDevices (s : MState) (o : ScanOracle) : ScanResult × MState × ℕ :=
  if s.scanning then
    ({ status := "scanning", devices := some [], simulationMode := none,
       error := none }, s, 0)
  else
    match o.outcome with
    | .found devs =>
        if devs.isEmpty then
          let s' := enableSimulationMode s
          ({ status := "completed", devices := some devs,
             simulationMode := some s'.simMode, error := none },
            { s' with lastScan := some o.now, scanning := false }, o.opens)
        else
          let s' := { s with
            devices := connectToDevices o.avail o.connStatus o.connError
              s.devices devs }
          ({ status := "completed", devices := some devs,
             simulationMode := some s'.simMode, error := none },
            { s' with lastScan := some o.now, scanning := false }, o.opens)
    | .failure msg =>
        let s' := enableSimulationMode s
        ({ status := "error", devices := none,
           simulationMode := some s'.simMode, error := some msg },
          { s' with scanning := false }, o.opens)

/-- Whether a scan outcome takes the simulation-fallback path: zero
discovered devices, or an internal failure. -/
def scanFallback (o : ScanOracle) : Bool :=
  match o.outcome with
  | .found devs => devs.isEmpty
  | .failure _ => true

/-- A sequence of completed `scan()` calls. -/
def runScans (s : MState) (os : List ScanOracle) : MState :=
  os.foldl (fun st o => (scanDevices st o).2.1) s

/-- The raw control payload passed to `write_control`; missing keys are
`none`. -/
structure ControlPayload where
  outputPriority : Option String
  batteryChargeLimit : Option ℚ
  batteryDischargeLimit : Option ℚ
  gridExportLimit : Option ℚ
  emergencyPower : Option Bool
deriving DecidableEq, Repr

/-- `DeviceControl` dataclass (base_driver.py:64-71). -/
structure DeviceControl where
  outputPriority : String
  batteryChargeLimit : ℚ
  batteryDischargeLimit : ℚ
  gridExportLimit : ℚ
  emergencyPower : Bool
deriving DecidableEq, Repr

/-- The `DeviceControl(...)` construction with `.get` defaults inside
`DeviceManager.write_control` (device_manager.py:368-374). -/
def mkDeviceControl (p : ControlPayload) : DeviceControl :=
  { outputPriority := p.outputPriority.getD "solar",
    batteryChargeLimit := p.batteryChargeLimit.getD 100,
    batteryDischargeLimit := p.batteryDischargeLimit.getD 0,
    gridExportLimit := p.gridExportLimit.getD 0,
    emergencyPower := p.emergencyPower.getD false }

/-- Outcome of the delegated `await device.write_control(control)`. -/
inductive WriteOutcome where
  | ok (b : Bool)
  | exc (msg : String)
deriving DecidableEq, Repr

/-- `DeviceManager.write_control` (device_manager.py:354-380): `False` when
the id is unknown or the driver is not Connected (both before any mutation);
otherwise it builds the `DeviceControl` and delegates to the driver, whose
own state after the write is an oracle input (`postDriver`), and an
exception from the delegate is absorbed into `False`. -/
def writeControl (s : MState) (id : String) (p : ControlPayload)
    (o : WriteOutcome) (postDriver : Driver) : Bool × MState :=
  match s.devices.lookup id with
  | none => (false, s)
  | some d =>
      if d.status ≠ .connected then (false, s)
      else
        let _ctrl := mkDeviceControl p
        match o with
        | .ok b => (b, { s with devices := insertKey s.devices id postDriver })
        | .exc _ =>
            (false, { s with devices := insertKey s.devices id postDriver })

/-- C9: a `scan()` entered while the `scanning` flag is set returns
immediately with status `"scanning"`, performs zero transport opens, and
leaves the whole manager state — device table, simulation-mode flag,
last-scan time — untouched. -/
theorem scan_while_scanning_noop (s : MState) (o : ScanOracle)
    (h : s.scanning = true) :
    scanDevices s o =
      ({ status := "scanning", devices := some [], simulationMode := none,
         error := none }, s, 0) := by
  simp [scanDevices, h]

/-- Witness for `scan_while_scanning_noop` at a concrete in-flight state. -/
theorem scan_while_scanning_noop_witness :
    scanDevices
        { devices := [("simulator", simDriverConnected)], simMode := true,
          scanning := true, lastScan := some 50 }
        { outcome := .found [], now := 99, opens := 7,
          avail := ⟨true, true, true, true⟩,
          connStatus := fun _ => .connected, connError := fun _ => none } =
      ({ status := "scanning", devices := some [], simulationMode := none,
         error := none },
        { devices := [("simulator", simDriverConnected)], simMode := true,
          scanning := true, lastScan := some 50 }, 0) :=
  scan_while_scanning_noop _ _ rfl

/-- C7: `write_control` returns `false` and leaves the manager state — the
device table and every driver in it — unchanged whenever the device id is
unknown or the target driver's status is not Connected. -/
theorem writeControl_rejected_leaves_state (s : MState) (id : String)
    (p : ControlPayload) (o : WriteOutcome) (postDriver : Driver)
    (h : s.devices.lookup id = none ∨
      ∃ d, s.devices.lookup id = some d ∧ d.status ≠ .connected) :
    writeControl s id p o postDriver = (false, s) := by
  rcases h with h | ⟨d, hd, hs⟩
  · simp [writeControl, h]
  · simp [writeControl, hd, hs]

/-- A device table holding one Generic driver stuck in Error. -/
def errorDriver : Driver :=
  { kind := .generic, status := .error, lastError := some "timeout",
    attempts := 2 }

/-- Witness for `writeControl_rejected_leaves_state`: an unknown id against a
table holding one Error driver, and a known id whose driver is in Error. -/
theorem writeControl_rejected_leaves_state_witness :
    writeControl
        { devices := [("ttyUSB0_3", errorDriver)],
          simMode := false, scanning := false, lastScan := none }
        "unknown-id"
        { outputPriority := none, batteryChargeLimit := none,
          batteryDischargeLimit := none, gridExportLimit := none,
          emergencyPower := none }
        (.ok true) simDriverConnected =
      (false,
        { devices := [("ttyUSB0_3", errorDriver)],
          simMode := false, scanning := false, lastScan := none }) ∧
    writeControl
        { devices := [("ttyUSB0_3", errorDriver)],
          simMode := false, scanning := false, lastScan := none }
        "ttyUSB0_3"
        { outputPriority := none, batteryChargeLimit := none,
          batteryDischargeLimit := none, gridExportLimit := none,
          emergencyPower := none }
        (.ok true) simDriverConnected =
      (false,
        { devices := [("ttyUSB0_3", errorDriver)],
          simMode := false, scanning := false, lastScan := none }) :=
  ⟨writeControl_rejected_leaves_state _ _ _ _ _ (Or.inl (by decide)),
    writeControl_rejected_leaves_state _ _ _ _ _
      (Or.inr ⟨errorDriver, by decide, by decide⟩)⟩

/-- The availability table with the Growatt driver module missing. -/
def allButGrowatt : DriverAvail :=
  { growatt := false, deye := true, sma := true, generic := true }

/-- C6 counterexample: the tag `"Growatt SPF 5000 ES"` matches the vendor
keyword `"growatt"` (case-insensitively), yet with the Growatt driver module
missing the factory returns no driver at all — not a GenericModbus driver. -/
theorem growatt_match_without_module_returns_none :
    strContains (strToLower "Growatt SPF 5000 ES") "growatt" = true ∧
    createDriver "Growatt SPF 5000 ES" allButGrowatt = none := by
  decide

/-- The availability table with the Deye driver module missing. -/
def allButDeye : DriverAvail :=
  { growatt := true, deye := false, sma := true, generic := true }

/-- The availability table with the SMA driver module missing. -/
def allButSMA : DriverAvail :=
  { growatt := true, deye := true, sma := false, generic := true }

/-- The availability table with every driver module present. -/
def allAvail : DriverAvail :=
  { growatt := true, deye := true, sma := true, generic := true }

/-- C6 amended: whichever vendor the factory's match order selects —
growatt/spf first, then deye/sun, then sma/sunny — a tag matching that
vendor's keywords while that vendor's driver module is missing gets no
driver from the factory (`None`, never GenericModbus), and
`_connect_to_devices` then drops the device: the table gains no entry for it
and the scan continues with the remaining devices.  A GenericModbus driver
is produced only for tags matching no vendor keyword at all. -/
theorem vendor_match_missing_module_drops_device (ident : String)
    (avail : DriverAvail) :
    ((strContains (strToLower ident) "growatt" ||
        strContains (strToLower ident) "spf") = true →
      avail.growatt = false → createDriver ident avail = none) ∧
    ((strContains (strToLower ident) "growatt" ||
        strContains (strToLower ident) "spf") = false →
      (strContains (strToLower ident) "deye" ||
        strContains (strToLower ident) "sun") = true →
      avail.deye = false → createDriver ident avail = none) ∧
    ((strContains (strToLower ident) "growatt" ||
        strContains (strToLower ident) "spf") = false →
      (strContains (strToLower ident) "deye" ||
        strContains (strToLower ident) "sun") = false →
      (strContains (strToLower ident) "sma" ||
        strContains (strToLower ident) "sunny") = true →
      avail.sma = false → createDriver ident avail = none) ∧
    (createDriver ident avail = some .generic →
      ((strContains (strToLower ident) "growatt" ||
          strContains (strToLower ident) "spf") ||
        (strContains (strToLower ident) "deye" ||
          strContains (strToLower ident) "sun") ||
        (strContains (strToLower ident) "sma" ||
          strContains (strToLower ident) "sunny")) = false) ∧
    (createDriver ident avail = none →
      ∀ (tbl : List (String × Driver)) (cs : FoundDev → DeviceStatus)
        (ce : FoundDev → Option String) (fd : FoundDev) (rest : List FoundDev),
        fd.ident = ident →
        connectToDevices avail cs ce tbl (fd :: rest) =
          connectToDevices avail cs ce tbl rest) := by
  refine ⟨?_, ?_, ?_, ?_, ?_⟩
  · intro hg hmiss
    simp [createDriver, hg, hmiss]
  · intro hg hd hmiss
    simp [createDriver, hg, hd, hmiss]
  · intro hg hd hm hmiss
    simp [createDriver, hg, hd, hm, hmiss]
  · intro hgen
    cases hG : (strContains (strToLower ident) "growatt" ||
        strContains (strToLower ident) "spf") with
    | true =>
        cases hA : avail.growatt <;> simp [createDriver, hG, hA] at hgen
    | false =>
        cases hD : (strContains (strToLower ident) "deye" ||
            strContains (strToLower ident) "sun") with
        | true =>
            cases hA : avail.deye <;> simp [createDriver, hG, hD, hA] at hgen
        | false =>
            cases hM : (strContains (strToLower ident) "sma" ||
                strContains (strToLower ident) "sunny") with
            | true =>
                cases hA : avail.sma <;>
                  simp [createDriver, hG, hD, hM, hA] at hgen
            | false => simp [hG, hD, hM]
  · intro hnone tbl cs ce fd rest hfd
    simp [connectToDevices, hfd, hnone]

/-- Witness for `vendor_match_missing_module_drops_device`, one concrete
input per conjunct: a growatt-, deye- and sma-matched tag each yields `None`
when its module is missing; `"MODBUS-X"` (which the factory maps to
GenericModbus) matches no vendor keyword; and the table stays empty when the
one discovered device is the driverless growatt one. -/
theorem vendor_match_missing_module_drops_device_witness :
    createDriver "GROWATT" allButGrowatt = none ∧
    createDriver "Deye Inverter" allButDeye = none ∧
    createDriver "SMA Inverter" allButSMA = none ∧
    ((strContains (strToLower "MODBUS-X") "growatt" ||
        strContains (strToLower "MODBUS-X") "spf") ||
      (strContains (strToLower "MODBUS-X") "deye" ||
        strContains (strToLower "MODBUS-X") "sun") ||
      (strContains (strToLower "MODBUS-X") "sma" ||
        strContains (strToLower "MODBUS-X") "sunny")) = false ∧
    connectToDevices allButGrowatt (fun _ => DeviceStatus.connected)
        (fun _ => none) []
        [{ port := "/dev/ttyUSB1", baudrate := 9600, slaveId := 4,
           ident := "GROWATT" }] = [] :=
  ⟨(vendor_match_missing_module_drops_device "GROWATT" allButGrowatt).1
      (by decide) rfl,
    (vendor_match_missing_module_drops_device "Deye Inverter" allButDeye).2.1
      (by decide) (by decide) rfl,
    (vendor_match_missing_module_drops_device "SMA Inverter" allButSMA).2.2.1
      (by decide) (by decide) (by decide) rfl,
    (vendor_match_missing_module_drops_device "MODBUS-X" allAvail).2.2.2.1
      (by decide),
    (vendor_match_missing_module_drops_device "GROWATT" allButGrowatt).2.2.2.2
      (by decide) [] (fun _ => DeviceStatus.connected) (fun _ => none)
      { port := "/dev/ttyUSB1", baudrate := 9600, slaveId := 4,
        ident := "GROWATT" } [] rfl⟩

/-- Looking up the inserted key finds the inserted driver. -/
theorem lookup_insertKey (tbl : List (String × Driver)) (k : String)
    (d : Driver) : (insertKey tbl k d).lookup k = some d := by
  induction tbl with
  | nil => simp [insertKey, List.lookup]
  | cons p rest ih =>
      by_cases hp : p.1 = k
      · simp [insertKey, hp, List.lookup]
      · simp only [insertKey, if_neg hp, List.lookup]
        have hne : (k == p.1) = false := by
          simpa [beq_iff_eq] using fun h => hp h.symm
        simp [hne, ih]

/-- A completed scan leaves the `scanning` flag cleared. -/
theorem scanDevices_scanning (s : MState) (o : ScanOracle)
    (h : s.scanning = false) : ((scanDevices s o).2.1).scanning = false := by
  rw [scanDevices, if_neg (by simp [h])]
  cases ho : o.outcome with
  | found devs => by_cases hd : devs.isEmpty <;> simp [hd]
  | failure msg => simp

/-- One completed scan's effect on the simulation-mode flag: set to `true` on
the fallback path, untouched otherwise. -/
theorem scanDevices_simMode (s : MState) (o : ScanOracle)
    (h : s.scanning = false) :
    ((scanDevices s o).2.1).simMode = (s.simMode || scanFallback o) := by
  rw [scanDevices, if_neg (by simp [h])]
  cases ho : o.outcome with
  | found devs =>
      by_cases hd : devs.isEmpty <;>
        simp [hd, scanFallback, ho, enableSimulationMode]
  | failure msg => simp [scanFallback, ho, enableSimulationMode]

/-- A fallback scan installs the connected simulator under `"simulator"`. -/
theorem scanDevices_fallback_installs_simulator (s : MState) (o : ScanOracle)
    (h : s.scanning = false) (hf : scanFallback o = true) :
    ((scanDevices s o).2.1).devices.lookup "simulator" = some simDriverConnected := by
  rw [scanDevices, if_neg (by simp [h])]
  cases ho : o.outcome with
  | found devs =>
      have hd : devs.isEmpty := by simpa [scanFallback, ho] using hf
      simp [hd, enableSimulationMode, lookup_insertKey]
  | failure msg => simp [enableSimulationMode, lookup_insertKey]

/-- C1 amended: a completed scan that discovers zero devices (or fails
internally) sets the simulation-mode flag and installs the single connected
Simulation Driver under the fixed key `"simulator"`, while a scan that
discovers at least one device leaves the flag unchanged — it never clears
it.  Consequently, across every sequence of completed `scan()` calls the
flag equals "the initial flag, or some scan so far took the zero-device /
failure fallback", rather than tracking only the most recent scan. -/
theorem simulationMode_once_set_stays (s : MState) (o : ScanOracle)
    (os : List ScanOracle) (h : s.scanning = false) :
    (scanFallback o = true →
      ((scanDevices s o).2.1).simMode = true ∧
      ((scanDevices s o).2.1).devices.lookup "simulator"
          = some simDriverConnected) ∧
    (scanFallback o = false →
      ((scanDevices s o).2.1).simMode = s.simMode) ∧
    (runScans s os).simMode = (s.simMode || os.any scanFallback) := by
  refine ⟨?_, ?_, ?_⟩
  · intro hf
    refine ⟨?_, scanDevices_fallback_installs_simulator s o h hf⟩
    rw [scanDevices_simMode s o h, hf, Bool.or_true]
  · intro hf
    rw [scanDevices_simMode s o h, hf, Bool.or_false]
  · induction os generalizing s with
    | nil => simp [runScans]
    | cons o' os ih =>
        have hstep := scanDevices_simMode s o' h
        have hscan := scanDevices_scanning s o' h
        calc (runScans s (o' :: os)).simMode
            = (runScans (scanDevices s o').2.1 os).simMode := by
              simp [runScans]
          _ = ((scanDevices s o').2.1.simMode || os.any scanFallback) :=
              ih _ hscan
          _ = (s.simMode || (o' :: os).any scanFallback) := by
              rw [hstep]
              simp [Bool.or_assoc]

/-- Witness for `simulationMode_once_set_stays`: from the fresh manager, a
zero-device scan sets the flag and installs the simulator; a one-device scan
leaves the flag alone; and a zero-then-one-device sequence ends with the
flag set. -/
theorem simulationMode_once_set_stays_witness :
    (scanFallback
        { outcome := .found [], now := 100, opens := 1,
          avail := ⟨true, true, true, true⟩,
          connStatus := fun _ => .connected, connError := fun _ => none } = true →
      ((scanDevices initManager
          { outcome := .found [], now := 100, opens := 1,
            avail := ⟨true, true, true, true⟩,
            connStatus := fun _ => .connected,
            connError := fun _ => none }).2.1).simMode = true ∧
      ((scanDevices initManager
          { outcome := .found [], now := 100, opens := 1,
            avail := ⟨true, true, true, true⟩,
            connStatus := fun _ => .connected,
            connError := fun _ => none }).2.1).devices.lookup "simulator"
          = some simDriverConnected) ∧
    (scanFallback
        { outcome := .found [], now := 100, opens := 1,
          avail := ⟨true, true, true, true⟩,
          connStatus := fun _ => .connected, connError := fun _ => none } = false →
      ((scanDevices initManager
          { outcome := .found [], now := 100, opens := 1,
            avail := ⟨true, true, true, true⟩,
            connStatus := fun _ => .connected,
            connError := fun _ => none }).2.1).simMode = initManager.simMode) ∧
    (runScans initManager
        [{ outcome := .found [], now := 100, opens := 1,
           avail := ⟨true, true, true, true⟩,
           connStatus := fun _ => .connected, connError := fun _ => none }]).simMode
      = (initManager.simMode ||
          [({ outcome := .found [], now := 100, opens := 1,
              avail := ⟨true, true, true, true⟩,
              connStatus := fun _ => .connected,
              connError := fun _ => none } : ScanOracle)].any scanFallback) :=
  simulationMode_once_set_stays initManager
    { outcome := .found [], now := 100, opens := 1,
      avail := ⟨true, true, true, true⟩,
      connStatus := fun _ => .connected, connError := fun _ => none }
    [{ outcome := .found [], now := 100, opens := 1,
       avail := ⟨true, true, true, true⟩,
       connStatus := fun _ => .connected, connError := fun _ => none }]
    rfl

/-- A concrete device found by the second scan of the counterexample run. -/
def cexFoundDev : FoundDev :=
  { port := "/dev/ttyUSB0", baudrate := 9600, slaveId := 1,
    ident := "growatt spf" }

/-- First counterexample scan: discovers nothing. -/
def cexScan1 : ScanOracle :=
  { outcome := .found [], now := 100, opens := 1,
    avail := ⟨true, true, true, true⟩,
    connStatus := fun _ => .connected, connError := fun _ => none }

/-- Second counterexample scan: discovers one device. -/
def cexScan2 : ScanOracle :=
  { outcome := .found [cexFoundDev], now := 200, opens := 1,
    avail := ⟨true, true, true, true⟩,
    connStatus := fun _ => .connected, connError := fun _ => none }

/-- C1 counterexample: start from the fresh manager, run a zero-device scan
and then a scan that discovers one device.  The second scan completes and
reports that device, yet the simulation-mode flag is still `true` — the most
recent completed scan discovered a device but simulation mode remains
enabled, refuting the "if and only if" claim. -/
theorem simulationMode_survives_successful_scan :
    (scanDevices (scanDevices initManager cexScan1).2.1 cexScan2).1.status
        = "completed" ∧
    (scanDevices (scanDevices initManager cexScan1).2.1 cexScan2).1.devices
        = some [cexFoundDev] ∧
    (scanDevices (scanDevices initManager cexScan1).2.1 cexScan2).2.1.simMode
        = true := by
  decide

end SolarSync
